import Mathlib

/-!
Verification of the Lightweight-Charts-Modified2 drawing/render core against
its natural-language specification.  Prices, times and pixel coordinates are
JS numbers; we embed them as rationals (ℚ), which is exact for every value
the cited code paths construct from its inputs by +, -, *, / and abs.
-/

namespace Fib

/-- One anchor of a Fibonacci retracement: a (time, price) pair.
Mirrors `FibonacciPoint` (time, value) from the source. -/
structure FibonacciPoint where
  time : ℚ
  value : ℚ
deriving DecidableEq, Repr

/-- The two anchors of a retracement.  The source record also carries a
string `id`, irrelevant to level computation and omitted here. -/
structure FibonacciData where
  point1 : FibonacciPoint
  point2 : FibonacciPoint
deriving DecidableEq, Repr

/-- One entry of the list returned by `calculateLevels`.  The source also
returns a display string `percentage` (the decimal rendering of
`level * 100`), which carries no extra information and is omitted. -/
structure FibLevelResult where
  level : ℚ
  price : ℚ
deriving DecidableEq, Repr

/-- The default `levels` array of `defaultFibonacciOptions`. -/
def defaultFibonacciLevels : List ℚ := [0, 0.236, 0.382, 0.5, 0.618, 0.786, 1.0]

/-- Shallow embedding of `FibonacciRetracement.calculateLevels`.  The
instance fields `this._data` and `this._options.levels` are passed as
arguments. -/
def calculateLevels (data : FibonacciData) (levels : List ℚ) : List FibLevelResult :=
  let point1 := data.point1
  let point2 := data.point2
  let priceRange := |point2.value - point1.value|
  let isUptrend := point2.value > point1.value
  let baseLevelPrice := if isUptrend then point2.value else point1.value
  levels.map fun level =>
    let retracement := priceRange * level
    let price := if isUptrend then baseLevelPrice - retracement else baseLevelPrice + retracement
    { level := level, price := price }

/-- The level computation exactly as the claim words it: the base is the
higher anchor in an uptrend and the LOWER anchor in a downtrend. -/
def claimedCalculateLevels (data : FibonacciData) (levels : List ℚ) : List FibLevelResult :=
  let point1 := data.point1
  let point2 := data.point2
  let priceRange := |point2.value - point1.value|
  let isUptrend := point2.value > point1.value
  let base := if isUptrend then max point1.value point2.value else min point1.value point2.value
  levels.map fun level =>
    let retracement := priceRange * level
    let price := if isUptrend then base - retracement else base + retracement
    { level := level, price := price }

end Fib

/-- C1 counterexample: for the downtrend point1.value = 200, point2.value = 100
the code takes point1 (price 200, the HIGHER anchor) as base and runs the
levels upward, giving level 1.0 the price 300, while the claim's base (the
lower anchor, price 100) would give 200. -/
theorem calculateLevels_claim_counterexample :
    Fib.calculateLevels ⟨⟨0, 200⟩, ⟨1, 100⟩⟩ [1] ≠
      Fib.claimedCalculateLevels ⟨⟨0, 200⟩, ⟨1, 100⟩⟩ [1] ∧
    Fib.calculateLevels ⟨⟨0, 200⟩, ⟨1, 100⟩⟩ [1] = [{ level := 1, price := 300 }] := by
  constructor
  · unfold Fib.calculateLevels Fib.claimedCalculateLevels
    norm_num
  · unfold Fib.calculateLevels
    norm_num

/-- C1 amended: for every configured level fraction, `calculateLevels`
returns base - range*level in an uptrend and base + range*level in a
downtrend with range = |point2.value - point1.value|, where the base is the
higher(-or-equal) anchor's price in BOTH directions: point2 in an uptrend
and point1 in a downtrend. -/
theorem calculateLevels_amended (data : Fib.FibonacciData) (levels : List ℚ) :
    Fib.calculateLevels data levels =
      levels.map fun level =>
        { level := level
          price :=
            if data.point2.value > data.point1.value then
              max data.point1.value data.point2.value - |data.point2.value - data.point1.value| * level
            else
              max data.point1.value data.point2.value + |data.point2.value - data.point1.value| * level } := by
  unfold Fib.calculateLevels
  apply List.map_congr_left
  intro level _
  by_cases h : data.point2.value > data.point1.value
  · simp [h, max_eq_right (le_of_lt h)]
  · simp [h, max_eq_left (le_of_not_lt h)]

namespace Extrap

/-- The slice of the time scale that the extrapolation and the click-time
resolution code reads, through the internal accessors: `baseIndex` is
`_internal_baseIndex()`, `pointTime i` is
`_internal_indexToTimeScalePoint(i)?.originalTime` (`none` for undefined),
and `coord i` is `_internal_indexToCoordinate(i)` (`none` for null). -/
structure TimeScaleView where
  baseIndex : Int
  pointTime : Int → Option ℚ
  coord : Int → Option ℚ

/-- Shallow embedding of `ChartWidget._extrapolateTimeFromCoordinate`.
`now` stands for the value of `Date.now() / 1000` at call time. -/
def chartWidgetExtrapolateTime (ts : TimeScaleView) (now x : ℚ) : ℚ :=
  let baseIndex := ts.baseIndex
  let baseTime := ts.pointTime baseIndex
  let baseCoord := ts.coord baseIndex
  let prevIndex := baseIndex - 1
  let prevTime := ts.pointTime prevIndex
  let prevCoord := ts.coord prevIndex
  match baseTime, baseCoord, prevTime, prevCoord with
  | some bt, some bc, some pt, some pc =>
    let timeInterval := bt - pt
    let coordInterval := bc - pc
    if coordInterval ≠ 0 then
      let timePerPixel := timeInterval / coordInterval
      let pixelsBeyondBase := x - bc
      bt + pixelsBeyondBase * timePerPixel
    else
      now + x * 86400 / 100
  | _, _, _, _ => now + x * 86400 / 100

/-- Shallow embedding of `PaneWidget._extrapolateTimeFromCoordinate`: the
same two-point formula, but the fallback is bare `Date.now() / 1000`. -/
def paneWidgetExtrapolateTime (ts : TimeScaleView) (now x : ℚ) : ℚ :=
  let baseIndex := ts.baseIndex
  let baseTime := ts.pointTime baseIndex
  let baseCoord := ts.coord baseIndex
  let prevIndex := baseIndex - 1
  let prevTime := ts.pointTime prevIndex
  let prevCoord := ts.coord prevIndex
  match baseTime, baseCoord, prevTime, prevCoord with
  | some bt, some bc, some pt, some pc =>
    let timeInterval := bt - pt
    let coordInterval := bc - pc
    if coordInterval ≠ 0 then
      let timePerPixel := timeInterval / coordInterval
      let pixelDiff := x - bc
      bt + pixelDiff * timePerPixel
    else
      now
  | _, _, _, _ => now

/-- The `baseCoord !== null && point.x > baseCoord` test of the click
handlers. -/
def clickBeyondBase (baseCoord : Option ℚ) (x : ℚ) : Bool :=
  match baseCoord with
  | some c => decide (x > c)
  | none => false

/-- The time-resolution logic of `ChartWidget._handleTrendlineClick`:
extrapolate when the click is beyond the last bar's coordinate, otherwise
look up the nearest index's original time, with extrapolation fallbacks. -/
def handleTrendlineClickTime (ts : TimeScaleView) (now x : ℚ) (time : Option Int) : ℚ :=
  if clickBeyondBase (ts.coord ts.baseIndex) x then
    chartWidgetExtrapolateTime ts now x
  else
    match time with
    | some t =>
      match ts.pointTime t with
      | some timePoint => timePoint
      | none => chartWidgetExtrapolateTime ts now x
    | none => chartWidgetExtrapolateTime ts now x

/-- The time-resolution logic of `ChartWidget._handleFibonacciClick`, which
is textually the same decision chain as the trendline handler. -/
def handleFibonacciClickTime (ts : TimeScaleView) (now x : ℚ) (time : Option Int) : ℚ :=
  if clickBeyondBase (ts.coord ts.baseIndex) x then
    chartWidgetExtrapolateTime ts now x
  else
    match time with
    | some t =>
      match ts.pointTime t with
      | some timePoint => timePoint
      | none => chartWidgetExtrapolateTime ts now x
    | none => chartWidgetExtrapolateTime ts now x

/-- A time scale with no data points at all: every lookup returns null. -/
def emptyTimeScaleView : TimeScaleView :=
  { baseIndex := 0, pointTime := fun _ => none, coord := fun _ => none }

/-- The two-point time scale of spec Scenario A: points at times 100 and
200 with pixel coordinates 10 and 20. -/
def scenarioTimeScaleView : TimeScaleView :=
  { baseIndex := 1
    pointTime := fun i => if i = 1 then some 200 else if i = 0 then some 100 else none
    coord := fun i => if i = 1 then some 20 else if i = 0 then some 10 else none }

end Extrap

/-- C3 counterexample: on a time scale with no reference points, at now = 0
and x = 100 the chart-widget-level fallback returns 0 + 100 * 86400 / 100 =
86400 while the pane-widget-level fallback returns 0, so the two
extrapolation functions differ. -/
theorem extrapolation_fallbacks_counterexample :
    Extrap.chartWidgetExtrapolateTime Extrap.emptyTimeScaleView 0 100 ≠
      Extrap.paneWidgetExtrapolateTime Extrap.emptyTimeScaleView 0 100 := by
  unfold Extrap.chartWidgetExtrapolateTime Extrap.paneWidgetExtrapolateTime
    Extrap.emptyTimeScaleView
  norm_num

/-- C3 amended: whenever both of the last two reference points have a known
time and coordinate and their coordinate delta is nonzero, the
chart-widget-level and the pane-widget-level extrapolation functions agree
for every pixel x; their fallback values for missing reference points
differ (by x * 86400 / 100). -/
theorem extrapolation_functions_agree (ts : Extrap.TimeScaleView) (now x bt bc pt pc : ℚ)
    (hbt : ts.pointTime ts.baseIndex = some bt)
    (hbc : ts.coord ts.baseIndex = some bc)
    (hpt : ts.pointTime (ts.baseIndex - 1) = some pt)
    (hpc : ts.coord (ts.baseIndex - 1) = some pc)
    (hne : bc - pc ≠ 0) :
    Extrap.chartWidgetExtrapolateTime ts now x = Extrap.paneWidgetExtrapolateTime ts now x := by
  simp only [Extrap.chartWidgetExtrapolateTime, Extrap.paneWidgetExtrapolateTime,
    hbt, hbc, hpt, hpc]
  simp [hne]

/-- C3 witness: the agreement theorem applied to the concrete two-point
time scale of Scenario A at now = 0, x = 30. -/
theorem extrapolation_functions_agree_witness :
    Extrap.chartWidgetExtrapolateTime Extrap.scenarioTimeScaleView 0 30 =
      Extrap.paneWidgetExtrapolateTime Extrap.scenarioTimeScaleView 0 30 :=
  extrapolation_functions_agree Extrap.scenarioTimeScaleView 0 30 200 20 100 10
    rfl rfl rfl rfl (by norm_num)

/-- C4: in both the trendline and the fibonacci click handler, a click at a
pixel x strictly greater than the coordinate of baseIndex resolves the
anchor time by linear extrapolation (never by index lookup). -/
theorem click_beyond_base_extrapolates (ts : Extrap.TimeScaleView) (now x c : ℚ)
    (t : Option Int) (hc : ts.coord ts.baseIndex = some c) (hx : x > c) :
    Extrap.handleTrendlineClickTime ts now x t = Extrap.chartWidgetExtrapolateTime ts now x ∧
    Extrap.handleFibonacciClickTime ts now x t = Extrap.chartWidgetExtrapolateTime ts now x := by
  unfold Extrap.handleTrendlineClickTime Extrap.handleFibonacciClickTime
  rw [hc]
  simp [Extrap.clickBeyondBase, hx]

/-- C4 witness: on the Scenario A time scale (last coordinate 20), a click
at x = 30 with a non-null nearest index resolves by extrapolation in both
handlers. -/
theorem click_beyond_base_extrapolates_witness :
    Extrap.handleTrendlineClickTime Extrap.scenarioTimeScaleView 0 30 (some 0) =
      Extrap.chartWidgetExtrapolateTime Extrap.scenarioTimeScaleView 0 30 ∧
    Extrap.handleFibonacciClickTime Extrap.scenarioTimeScaleView 0 30 (some 0) =
      Extrap.chartWidgetExtrapolateTime Extrap.scenarioTimeScaleView 0 30 :=
  click_beyond_base_extrapolates Extrap.scenarioTimeScaleView 0 30 20 (some 0)
    rfl (by norm_num)

/-- C6: on a time scale whose last two points have times 100 and 200 at
coordinates 10 and 20, the extrapolation function maps a click at x = 30 to
time 300, for any current clock value. -/
theorem scenario_a_extrapolation (now : ℚ) :
    Extrap.chartWidgetExtrapolateTime Extrap.scenarioTimeScaleView now 30 = 300 := by
  unfold Extrap.chartWidgetExtrapolateTime Extrap.scenarioTimeScaleView
  norm_num

namespace HitTest

/-- Pixel tolerances from the pane-widget constants
SELECTION_HIT_TOLERANCE = 8 and LINE_HIT_TOLERANCE = 5.  Every distance in
this embedding is represented by its square (the source compares Euclidean
square-root distances; x ↦ x ^ 2 is strictly monotone on nonnegative
reals, so every comparison in the source holds iff its squared form
holds), hence the squared bounds 64 and 25. -/
def selectionHitToleranceSq : ℚ := 64

/-- Squared form of LINE_HIT_TOLERANCE = 5. -/
def lineHitToleranceSq : ℚ := 25

/-- The hitType field of a TrendlineHitResult. -/
inductive HitType where
  | line
  | point1
  | point2
deriving DecidableEq, Repr

/-- TrendlineHitResult with the distance stored squared. -/
structure TrendlineHitResult where
  trendlineId : Nat
  hitType : HitType
  distanceSq : ℚ
deriving DecidableEq, Repr

/-- One committed trendline after both anchors were projected to pixel
space by _convertTimeAndPriceToCoordinates; candidates whose projection
returned null are skipped by the source before any test and are therefore
not in the candidate list. -/
structure Candidate where
  cid : Nat
  x1 : ℚ
  y1 : ℚ
  x2 : ℚ
  y2 : ℚ
deriving DecidableEq, Repr

/-- Squared Euclidean distance between pixel points (px, py), (qx, qy). -/
def distSq (px py qx qy : ℚ) : ℚ := (px - qx) ^ 2 + (py - qy) ^ 2

/-- Squared form of _distanceToLine: distance from (px, py) to the segment
from (x1, y1) to (x2, y2), the parameter t clamped to [0, 1]. -/
def distanceToLineSq (px py x1 y1 x2 y2 : ℚ) : ℚ :=
  let dx := x2 - x1
  let dy := y2 - y1
  if dx = 0 ∧ dy = 0 then distSq px py x1 y1
  else
    let t := max 0 (min 1 (((px - x1) * dx + (py - y1) * dy) / (dx * dx + dy * dy)))
    distSq px py (x1 + t * dx) (y1 + t * dy)

/-- The squared form of dist < closestDistance, where a missing closest hit
stands for closestDistance = Infinity. -/
def closer (d : ℚ) (closest : Option TrendlineHitResult) : Bool :=
  match closest with
  | none => true
  | some h => decide (d < h.distanceSq)

/-- The guard closestHit === null or closestHit.hitType === line in front
of the line test of _hitTestTrendlines. -/
def lineTestAllowed (closest : Option TrendlineHitResult) : Bool :=
  match closest with
  | none => true
  | some h => decide (h.hitType = HitType.line)

/-- One endpoint test of _hitTestTrendlines: record the hit when the
(squared) distance is within tolerance and strictly beats the closest. -/
def anchorTest (cid : Nat) (ht : HitType) (d : ℚ) (acc : Option TrendlineHitResult) :
    Option TrendlineHitResult :=
  if d ≤ selectionHitToleranceSq ∧ closer d acc then some ⟨cid, ht, d⟩ else acc

/-- The guarded line test of _hitTestTrendlines. -/
def lineTest (cid : Nat) (ld : ℚ) (acc : Option TrendlineHitResult) :
    Option TrendlineHitResult :=
  if lineTestAllowed acc then
    if ld ≤ lineHitToleranceSq ∧ closer ld acc then some ⟨cid, HitType.line, ld⟩ else acc
  else acc

/-- The body of the forEach loop of _hitTestTrendlines for one candidate:
point1 test, then point2 test, then the guarded line test. -/
def hitTestStep (x y : ℚ) (acc : Option TrendlineHitResult) (c : Candidate) :
    Option TrendlineHitResult :=
  let acc1 := anchorTest c.cid HitType.point1 (distSq x y c.x1 c.y1) acc
  let acc2 := anchorTest c.cid HitType.point2 (distSq x y c.x2 c.y2) acc1
  lineTest c.cid (distanceToLineSq x y c.x1 c.y1 c.x2 c.y2) acc2

/-- PaneWidget._hitTestTrendlines: fold the per-candidate tests over the
committed trendlines in Map insertion order, starting from no hit. -/
def hitTestTrendlines (x y : ℚ) (cands : List Candidate) : Option TrendlineHitResult :=
  cands.foldl (hitTestStep x y) none

/-- The accumulator holds an anchor (non-line) hit. -/
def isPointHit (acc : Option TrendlineHitResult) : Prop :=
  ∃ h, acc = some h ∧ h.hitType ≠ HitType.line

/-- Candidate A of the C5 counterexample: anchor 1 at (7, 0), anchor 2 at
(100, 0). -/
def candA : Candidate := ⟨0, 7, 0, 100, 0⟩

/-- Candidate B of the C5 counterexample: a horizontal segment from
(-100, 2) to (100, 2) passing 2 pixels from the origin, with both anchors
far away. -/
def candB : Candidate := ⟨1, -100, 2, 100, 2⟩

end HitTest

namespace HitTest

/-- The returned hit respects the tolerance of its kind. -/
def withinTolerance (h : TrendlineHitResult) : Prop :=
  (h.hitType = HitType.line → h.distanceSq ≤ lineHitToleranceSq) ∧
  (h.hitType ≠ HitType.line → h.distanceSq ≤ selectionHitToleranceSq)

/-- Every hit held by the accumulator respects its tolerance. -/
def boundsInv (acc : Option TrendlineHitResult) : Prop :=
  ∀ h, acc = some h → withinTolerance h

theorem boundsInv_anchorTest (cid : Nat) (ht : HitType) (d : ℚ)
    (acc : Option TrendlineHitResult) (hht : ht ≠ HitType.line)
    (hacc : boundsInv acc) : boundsInv (anchorTest cid ht d acc) := by
  intro h heq
  unfold anchorTest at heq
  split at heq
  · cases heq
    rename_i hcond
    exact ⟨fun hl => absurd hl hht, fun _ => hcond.1⟩
  · exact hacc h heq

theorem boundsInv_lineTest (cid : Nat) (ld : ℚ) (acc : Option TrendlineHitResult)
    (hacc : boundsInv acc) : boundsInv (lineTest cid ld acc) := by
  intro h heq
  unfold lineTest at heq
  split at heq
  · split at heq
    · cases heq
      rename_i hcond
      exact ⟨fun _ => hcond.1, fun hn => absurd rfl hn⟩
    · exact hacc h heq
  · exact hacc h heq

theorem boundsInv_hitTestStep (x y : ℚ) (acc : Option TrendlineHitResult) (c : Candidate)
    (hacc : boundsInv acc) : boundsInv (hitTestStep x y acc c) := by
  unfold hitTestStep
  exact boundsInv_lineTest _ _ _
    (boundsInv_anchorTest _ _ _ _ (by decide)
      (boundsInv_anchorTest _ _ _ _ (by decide) hacc))

theorem boundsInv_foldl (x y : ℚ) (cands : List Candidate) (acc : Option TrendlineHitResult)
    (hacc : boundsInv acc) : boundsInv (cands.foldl (hitTestStep x y) acc) := by
  induction cands generalizing acc with
  | nil => exact hacc
  | cons c cs ih => exact ih _ (boundsInv_hitTestStep x y acc c hacc)

theorem isPointHit_anchorTest (cid : Nat) (ht : HitType) (d : ℚ)
    (acc : Option TrendlineHitResult) (hht : ht ≠ HitType.line)
    (hacc : isPointHit acc) : isPointHit (anchorTest cid ht d acc) := by
  unfold anchorTest
  split
  · exact ⟨_, rfl, hht⟩
  · exact hacc

theorem lineTest_of_pointHit (cid : Nat) (ld : ℚ) (acc : Option TrendlineHitResult)
    (hacc : isPointHit acc) : lineTest cid ld acc = acc := by
  obtain ⟨h, rfl, hht⟩ := hacc
  unfold lineTest
  have hall : lineTestAllowed (some h) = false := by
    simp [lineTestAllowed, hht]
  rw [hall]
  simp

theorem isPointHit_hitTestStep (x y : ℚ) (acc : Option TrendlineHitResult) (c : Candidate)
    (hacc : isPointHit acc) : isPointHit (hitTestStep x y acc c) := by
  unfold hitTestStep
  have h1 := isPointHit_anchorTest c.cid HitType.point1 (distSq x y c.x1 c.y1) acc
    (by decide) hacc
  have h2 := isPointHit_anchorTest c.cid HitType.point2 (distSq x y c.x2 c.y2) _
    (by decide) h1
  rw [lineTest_of_pointHit _ _ _ h2]
  exact h2

end HitTest

/-- C5 counterexample: with a click at the origin, candidate A (an anchor 7
pixels away) tested before candidate B (a segment passing 2 pixels away,
anchors far off) returns the anchor hit at squared distance 49; in the
opposite order the line hit at squared distance 4 wins.  So the result
depends on the order in which candidates are tested, and in the first
order the returned hit is not the one with the smallest distance. -/
theorem hitTestTrendlines_order_counterexample :
    HitTest.hitTestTrendlines 0 0 [HitTest.candA, HitTest.candB] =
      some ⟨0, HitTest.HitType.point1, 49⟩ ∧
    HitTest.hitTestTrendlines 0 0 [HitTest.candB, HitTest.candA] =
      some ⟨1, HitTest.HitType.line, 4⟩ ∧
    (4 : ℚ) < 49 := by
  refine ⟨?_, ?_, by norm_num⟩ <;>
    (norm_num [HitTest.hitTestTrendlines, HitTest.hitTestStep, HitTest.anchorTest,
      HitTest.lineTest, HitTest.distSq, HitTest.distanceToLineSq, HitTest.closer,
      HitTest.lineTestAllowed, HitTest.selectionHitToleranceSq, HitTest.lineHitToleranceSq,
      HitTest.candA, HitTest.candB, List.foldl, min_def, max_def];
     all_goals decide)

/-- C5 amended: each candidate's two anchors are tested against the point
tolerance (8 px) with strict-improvement updates, and the perpendicular
segment test (smaller tolerance, 5 px) runs for a candidate only while no
anchor hit has been recorded; every returned hit is within its kind's
tolerance, and once an anchor hit is recorded the final result stays an
anchor hit — later, closer line hits are never considered, so the winner
can depend on the order in which candidates are stored (it is not always
the globally smallest-distance hit). -/
theorem hitTestTrendlines_amended :
    (∀ (x y : ℚ) (cands : List HitTest.Candidate) (h : HitTest.TrendlineHitResult),
      HitTest.hitTestTrendlines x y cands = some h → HitTest.withinTolerance h) ∧
    (∀ (x y : ℚ) (cands : List HitTest.Candidate) (acc : Option HitTest.TrendlineHitResult),
      HitTest.isPointHit acc →
        HitTest.isPointHit (cands.foldl (HitTest.hitTestStep x y) acc)) := by
  constructor
  · intro x y cands h heq
    exact HitTest.boundsInv_foldl x y cands none (fun h0 heq0 => by cases heq0) h heq
  · intro x y cands acc hacc
    induction cands generalizing acc with
    | nil => exact hacc
    | cons c cs ih => exact ih _ (HitTest.isPointHit_hitTestStep x y acc c hacc)

/-- C5 witness: the amended theorem applied at the concrete click (0, 0):
the returned line hit on candidate B is within the line tolerance, and
folding candidate A over an anchor-hit accumulator keeps an anchor hit. -/
theorem hitTestTrendlines_amended_witness :
    ((⟨1, HitTest.HitType.line, 4⟩ : HitTest.TrendlineHitResult).distanceSq ≤
      HitTest.lineHitToleranceSq) ∧
    HitTest.isPointHit (List.foldl (HitTest.hitTestStep 0 0)
      (some ⟨0, HitTest.HitType.point1, 49⟩) [HitTest.candA]) := by
  constructor
  · refine (hitTestTrendlines_amended.1 0 0 [HitTest.candB] ⟨1, HitTest.HitType.line, 4⟩
      ?_).1 rfl
    norm_num [HitTest.hitTestTrendlines, HitTest.hitTestStep, HitTest.anchorTest,
      HitTest.lineTest, HitTest.distSq, HitTest.distanceToLineSq, HitTest.closer,
      HitTest.lineTestAllowed, HitTest.selectionHitToleranceSq, HitTest.lineHitToleranceSq,
      HitTest.candB, List.foldl, min_def, max_def]
  · exact hitTestTrendlines_amended.2 0 0 [HitTest.candA]
      (some ⟨0, HitTest.HitType.point1, 49⟩) ⟨_, rfl, by decide⟩

namespace Sched

/-- Repaint severity levels, ordered None < Cursor < Light < Full. -/
inductive InvalidationLevel where
  | levelNone
  | cursor
  | light
  | full
deriving DecidableEq, Repr

/-- Numeric rank of a level, for taking maxima. -/
def InvalidationLevel.rank : InvalidationLevel → Nat
  | .levelNone => 0
  | .cursor => 1
  | .light => 2
  | .full => 3

/-- The larger of two levels. -/
def InvalidationLevel.maxLevel (a b : InvalidationLevel) : InvalidationLevel :=
  if a.rank ≤ b.rank then b else a

/-- Modelled from the spec: the InvalidateMask class itself is not among
the provided sources (only its callers in the chart widget and chart model
are).  Spec section 3: a mask is a global level plus per-pane records
(level, autoScale flag) and an ordered sequence of time-scale
invalidations; the time-scale operations are kept abstract as tokens. -/
structure InvalidateMask where
  globalLevel : InvalidationLevel
  paneLevels : List (Nat × InvalidationLevel × Bool)
  timeScaleInvalidations : List Nat
deriving DecidableEq, Repr

/-- Merge one per-pane record into a per-pane list: maximum level and
OR-ed autoScale for an existing pane, appended otherwise. -/
def mergePaneRecord (ls : List (Nat × InvalidationLevel × Bool))
    (e : Nat × InvalidationLevel × Bool) : List (Nat × InvalidationLevel × Bool) :=
  if ls.any (fun p => p.1 = e.1) then
    ls.map fun p =>
      if p.1 = e.1 then (p.1, p.2.1.maxLevel e.2.1, p.2.2 || e.2.2) else p
  else ls ++ [e]

/-- Modelled from the spec: merging two masks takes the maximum level per
pane and globally, ORs autoScale, and concatenates the time-scale
invalidations in order. -/
def InvalidateMask.merge (a b : InvalidateMask) : InvalidateMask :=
  { globalLevel := a.globalLevel.maxLevel b.globalLevel
    paneLevels := b.paneLevels.foldl mergePaneRecord a.paneLevels
    timeScaleInvalidations := a.timeScaleInvalidations ++ b.timeScaleInvalidations }

/-- Modelled from the spec: InvalidateMask.full(), a mask with global
level Full. -/
def InvalidateMask.fullMask : InvalidateMask := ⟨.full, [], []⟩

/-- The scheduling state of `ChartWidget._invalidateHandler`: the pending
mask (`this._invalidateMask`), the draw-planned flag, and the number of
`requestAnimationFrame` calls made so far. -/
structure SchedState where
  invalidateMask : Option InvalidateMask
  drawPlanned : Bool
  rafCount : Nat
deriving DecidableEq, Repr

/-- Shallow embedding of `ChartWidget._invalidateHandler` up to the frame
callback body: merge the incoming mask into the pending one (or install
it), then schedule a frame callback only when none is planned. -/
def invalidateHandler (mask : InvalidateMask) (s : SchedState) : SchedState :=
  let merged :=
    match s.invalidateMask with
    | some pending => some (pending.merge mask)
    | none => some mask
  let s1 := { s with invalidateMask := merged }
  if s1.drawPlanned then s1
  else { s1 with drawPlanned := true, rafCount := s1.rafCount + 1 }

/-- `ChartModel.fullUpdate`: `_invalidate(InvalidateMask.full())`, which
forwards the mask to the widget's invalidate handler. -/
def fullUpdate (s : SchedState) : SchedState :=
  invalidateHandler InvalidateMask.fullMask s

end Sched

/-- C2: while the draw-planned flag is set, a further mutation only merges
its mask into the pending mask and never schedules another frame callback;
and two consecutive fullUpdate calls from an idle state schedule exactly
one requestAnimationFrame call. -/
theorem invalidation_coalesces :
    (∀ (s : Sched.SchedState) (m : Sched.InvalidateMask), s.drawPlanned = true →
      (Sched.invalidateHandler m s).rafCount = s.rafCount ∧
      (Sched.invalidateHandler m s).drawPlanned = true ∧
      (Sched.invalidateHandler m s).invalidateMask =
        some (match s.invalidateMask with
              | some pending => pending.merge m
              | none => m)) ∧
    (∀ s : Sched.SchedState, s.drawPlanned = false →
      (Sched.fullUpdate (Sched.fullUpdate s)).rafCount = s.rafCount + 1 ∧
      (Sched.fullUpdate (Sched.fullUpdate s)).drawPlanned = true) := by
  constructor
  · intro s m hplanned
    unfold Sched.invalidateHandler
    simp only [hplanned]
    refine ⟨rfl, rfl, ?_⟩
    cases s.invalidateMask <;> simp
  · intro s hidle
    unfold Sched.fullUpdate Sched.invalidateHandler
    simp only [hidle]
    cases s.invalidateMask <;> simp

/-- C2 witness: the coalescing theorem at a concrete already-planned state
with five frame requests, and the double fullUpdate at a concrete idle
state. -/
theorem invalidation_coalesces_witness :
    (Sched.invalidateHandler Sched.InvalidateMask.fullMask ⟨none, true, 5⟩).rafCount = 5 ∧
    (Sched.fullUpdate (Sched.fullUpdate ⟨none, false, 0⟩)).rafCount = 0 + 1 :=
  ⟨(invalidation_coalesces.1 ⟨none, true, 5⟩ Sched.InvalidateMask.fullMask rfl).1,
   (invalidation_coalesces.2 ⟨none, false, 0⟩ rfl).1⟩

namespace Toggle

/-- One in-progress anchor: pixel position plus resolved time and price. -/
structure DrawingPoint where
  x : ℚ
  y : ℚ
  time : ℚ
  price : ℚ
deriving DecidableEq, Repr

/-- The state read and written by the trendline-tool toggle handler: the
widget's drawing fields, the chart model's mirror of them, the crosshair
entity (visibility and center-dot flag), the chart options' crosshair
mode, the widget's saved original mode, the cursor style, and the set of
committed trendline ids. -/
structure ToggleState where
  isDrawingTrendline : Bool
  trendlineStartPoint : Option DrawingPoint
  trendlinePreviewEnd : Option DrawingPoint
  modelIsDrawingTrendline : Bool
  modelTrendlineStartPoint : Option DrawingPoint
  modelTrendlinePreviewEnd : Option DrawingPoint
  crosshairVisible : Bool
  showCenterDot : Bool
  crosshairMode : Nat
  originalCrosshairMode : Option Nat
  cursorStyle : Option String
  trendlines : List Nat
deriving DecidableEq, Repr

/-- `ChartModel.setTrendlineDrawingState`: store the flag and clear the
model's in-progress anchor and preview when drawing is turned off. -/
def setTrendlineDrawingState (isDrawing : Bool) (s : ToggleState) : ToggleState :=
  let s1 := { s with modelIsDrawingTrendline := isDrawing }
  if isDrawing then s1
  else { s1 with modelTrendlineStartPoint := none, modelTrendlinePreviewEnd := none }

/-- Shallow embedding of `ChartWidget._onTrendlineToolToggle`.  The
activation branch stores the pre-toggle crosshair mode before switching
the options to mode 0; `_getLastMousePosition()` returns null in the
source, so its initial-position block is dead and does not appear. -/
def onTrendlineToolToggle (active : Bool) (s : ToggleState) : ToggleState :=
  let s1 := { s with isDrawingTrendline := active
                     trendlineStartPoint := none
                     trendlinePreviewEnd := none }
  let s2 := setTrendlineDrawingState active s1
  if active then
    { s2 with cursorStyle := some "default"
              crosshairVisible := true
              showCenterDot := true
              originalCrosshairMode := some s2.crosshairMode
              crosshairMode := 0 }
  else
    let s3 := { s2 with cursorStyle := none, showCenterDot := false }
    match s3.originalCrosshairMode with
    | some m => { s3 with crosshairMode := m, originalCrosshairMode := none }
    | none => s3

end Toggle

/-- C7: toggling the trendline tool on and then off without any click
creates zero annotations, clears the in-progress anchor and preview in
both widget and model, clears the center-dot flag, and re-applies the
saved pre-toggle crosshair mode. -/
theorem toggle_on_off_restores (s : Toggle.ToggleState) :
    (Toggle.onTrendlineToolToggle false (Toggle.onTrendlineToolToggle true s)).trendlines =
        s.trendlines ∧
    (Toggle.onTrendlineToolToggle false (Toggle.onTrendlineToolToggle true s)).trendlineStartPoint =
        none ∧
    (Toggle.onTrendlineToolToggle false (Toggle.onTrendlineToolToggle true s)).trendlinePreviewEnd =
        none ∧
    (Toggle.onTrendlineToolToggle false
        (Toggle.onTrendlineToolToggle true s)).modelTrendlineStartPoint = none ∧
    (Toggle.onTrendlineToolToggle false
        (Toggle.onTrendlineToolToggle true s)).modelTrendlinePreviewEnd = none ∧
    (Toggle.onTrendlineToolToggle false (Toggle.onTrendlineToolToggle true s)).showCenterDot =
        false ∧
    (Toggle.onTrendlineToolToggle false (Toggle.onTrendlineToolToggle true s)).crosshairMode =
        s.crosshairMode ∧
    (Toggle.onTrendlineToolToggle false
        (Toggle.onTrendlineToolToggle true s)).originalCrosshairMode = none ∧
    (Toggle.onTrendlineToolToggle false (Toggle.onTrendlineToolToggle true s)).isDrawingTrendline =
        false ∧
    (Toggle.onTrendlineToolToggle false
        (Toggle.onTrendlineToolToggle true s)).modelIsDrawingTrendline = false := by
  simp [Toggle.onTrendlineToolToggle, Toggle.setTrendlineDrawingState]

namespace PriceApi

/-- A JS number that may be the NaN sentinel. -/
inductive JsNumber where
  | nan
  | val (q : ℚ)
deriving DecidableEq, Repr

/-- The price scale as the API sees it: its `firstValue()` and its two
conversion methods.  The conversion internals live in the price-scale
model outside the cited API file and stay abstract as function fields. -/
structure PriceScale where
  firstValue : Option ℚ
  coordinateToPriceImpl : ℚ → ℚ → ℚ
  priceToCoordinateImpl : ℚ → ℚ → ℚ

/-- Shallow embedding of `PriceScaleApi.coordinateToPrice`; `found` is the
result of `findPriceScale`, whose `ensureNotNull` wrapper is the only
throw site and is modelled as the error case. -/
def coordinateToPrice (found : Option PriceScale) (coordinate : ℚ) : Except String JsNumber :=
  match found with
  | none => .error "Value is null"
  | some priceScale =>
    match priceScale.firstValue with
    | none => .ok JsNumber.nan
    | some firstValue =>
      .ok (JsNumber.val (priceScale.coordinateToPriceImpl coordinate firstValue))

/-- Shallow embedding of `PriceScaleApi.priceToCoordinate`. -/
def priceToCoordinate (found : Option PriceScale) (price : ℚ) : Except String JsNumber :=
  match found with
  | none => .error "Value is null"
  | some priceScale =>
    match priceScale.firstValue with
    | none => .ok JsNumber.nan
    | some firstValue =>
      .ok (JsNumber.val (priceScale.priceToCoordinateImpl price firstValue))

/-- A found price scale with no data yet (firstValue null) and arbitrary
conversion internals, used as the C8 witness input. -/
def emptyPriceScale : PriceScale :=
  { firstValue := none
    coordinateToPriceImpl := fun _ _ => 0
    priceToCoordinateImpl := fun _ _ => 0 }

end PriceApi

/-- C8: when the underlying price scale exists but its firstValue() is
null (no data yet), coordinateToPrice and priceToCoordinate both return
the NaN sentinel and do not throw, for every coordinate and price. -/
theorem price_api_nan_when_not_ready (ps : PriceApi.PriceScale) (y p : ℚ)
    (hfv : ps.firstValue = none) :
    PriceApi.coordinateToPrice (some ps) y = Except.ok PriceApi.JsNumber.nan ∧
    PriceApi.priceToCoordinate (some ps) p = Except.ok PriceApi.JsNumber.nan := by
  simp only [PriceApi.coordinateToPrice, PriceApi.priceToCoordinate, hfv]
  exact ⟨trivial, trivial⟩

/-- C8 witness: the not-ready theorem at a concrete data-less price scale,
coordinate 5 and price 7. -/
theorem price_api_nan_when_not_ready_witness :
    PriceApi.coordinateToPrice (some PriceApi.emptyPriceScale) 5 =
      Except.ok PriceApi.JsNumber.nan ∧
    PriceApi.priceToCoordinate (some PriceApi.emptyPriceScale) 7 =
      Except.ok PriceApi.JsNumber.nan :=
  price_api_nan_when_not_ready PriceApi.emptyPriceScale 5 7 rfl

namespace Panes

/-- A pane as the pane-removal code paths see it: an object identity (for
indexOf / reference comparison) plus how many of its data sources are
series and how many are other sources; `dataSources().length` is the sum
of the two counts. -/
structure Pane where
  pid : Nat
  numSeries : Nat
  numOtherSources : Nat
deriving DecidableEq, Repr

/-- The model state touched by the pane operations: the pane list, plus a
log of applied price-scale options standing for the option/scale mutations
the in-range branch of applyPriceScaleOptions performs (merge into
this._options, pane.applyScaleOptions, events); those mutations never
touch the pane list. -/
structure ModelState where
  panes : List Pane
  scaleOptionsLog : List (String × Int)
deriving DecidableEq, Repr

/-- process.env.NODE_ENV of the build. -/
inductive BuildMode where
  | development
  | production
deriving DecidableEq, Repr

/-- The outcome of a model operation: the state left behind together with
the message of the exception that escaped, if one did (mutations made
before a JS throw persist). -/
structure OpResult where
  state : ModelState
  thrown : Option String
deriving DecidableEq, Repr

/-- The pane list after the chart-model constructor, which calls
_getOrCreatePane(0) on the initially empty list and therefore creates and
pushes exactly one pane. -/
def initialModel : ModelState := ⟨[⟨0, 0, 0⟩], []⟩

/-- Shallow embedding of `ChartModel.applyPriceScaleOptions`: the
`this._panes[paneIndex] === undefined` guard throws in development builds
and silently returns in production; the in-range body is summarized by
the log append (it mutates options and scales, never the pane list). -/
def applyPriceScaleOptions (mode : BuildMode) (priceScaleId : String) (paneIndex : Int)
    (m : ModelState) : OpResult :=
  if 0 ≤ paneIndex ∧ paneIndex < (m.panes.length : Int) then
    ⟨{ m with scaleOptionsLog := m.scaleOptionsLog ++ [(priceScaleId, paneIndex)] }, none⟩
  else if mode = BuildMode.development then
    ⟨m, some "Trying to apply price scale options with incorrect pane index"⟩
  else
    ⟨m, none⟩

/-- Shallow embedding of `ChartModel.removePane`: keep a single pane
untouched; otherwise `assert(index >= 0 && index < this._panes.length)`
(the helpers' assert throws unconditionally, in every build) and splice
the pane out.  The function takes no build mode because the source
consults none. -/
def removePane (index : Int) (m : ModelState) : OpResult :=
  if m.panes.length = 1 then ⟨m, none⟩
  else if 0 ≤ index ∧ index < (m.panes.length : Int) then
    ⟨{ m with panes := m.panes.eraseIdx index.toNat }, none⟩
  else
    ⟨m, some "Invalid pane index"⟩

/-- Shallow embedding of `ChartModel._cleanupIfPaneIsEmpty` applied to the
pane with identity `pid`: splice it out of the pane list only when it has
no data sources left and more than one pane exists. -/
def cleanupIfPaneIsEmpty (pid : Nat) (panes : List Pane) : List Pane :=
  match panes.find? (fun p => p.pid == pid) with
  | some pane =>
    if pane.numSeries + pane.numOtherSources = 0 ∧ 1 < panes.length then
      panes.eraseIdx (panes.findIdx (fun p => p.pid == pid))
    else panes
  | none => panes

/-- One `removeSeries` call for a series living on the pane with identity
`pid`, as far as the pane list is concerned: drop one series from that
pane, then run the empty-pane cleanup on it.  (The series-not-found and
pane-not-found asserts of removeSeries are unreachable on the
deletePaneById path, which iterates over a copy of an existing pane's own
series.) -/
def removeOneSeries (pid : Nat) (m : ModelState) : ModelState :=
  let panes1 := m.panes.map fun p =>
    if p.pid = pid then { p with numSeries := p.numSeries - 1 } else p
  { m with panes := cleanupIfPaneIsEmpty pid panes1 }

/-- Shallow embedding of `ChartModel.deletePaneById`: refuse index 0 with
a console warning, refuse out-of-range indices with a console warning
(returning unchanged in every build), else remove each series of the pane
(a copy of `pane.series()`, hence `pane.numSeries` removeSeries calls) and
then call removePane with the same index.  The `_paneDataMap`
bookkeeping and the final fullUpdate do not touch the pane list. -/
def deletePaneById (paneIndex : Int) (m : ModelState) : OpResult :=
  if paneIndex = 0 then ⟨m, none⟩
  else if (m.panes.length : Int) ≤ paneIndex ∨ paneIndex < 0 then ⟨m, none⟩
  else
    match m.panes[paneIndex.toNat]? with
    | some pane => removePane paneIndex ((removeOneSeries pane.pid)^[pane.numSeries] m)
    | none => ⟨m, none⟩

/-- A two-pane model, each pane holding one series. -/
def twoPaneModel : ModelState := ⟨[⟨0, 1, 0⟩, ⟨1, 1, 0⟩], []⟩

theorem length_le_length_eraseIdx_succ {α : Type} (l : List α) (i : Nat) :
    l.length ≤ (l.eraseIdx i).length + 1 := by
  induction l generalizing i with
  | nil => simp [List.eraseIdx]
  | cons a as ih =>
    cases i with
    | zero => simp [List.eraseIdx]
    | succ j =>
      simp only [List.eraseIdx, List.length_cons, Nat.add_le_add_iff_right]
      exact ih j

theorem eraseIdx_ne_nil_of_one_lt {α : Type} (l : List α) (i : Nat)
    (h : 1 < l.length) : l.eraseIdx i ≠ [] := by
  intro hnil
  have h2 := length_le_length_eraseIdx_succ l i
  rw [hnil] at h2
  simp at h2
  omega

theorem removePane_keeps_nonempty (idx : Int) (m : ModelState) (hm : m.panes ≠ []) :
    (removePane idx m).state.panes ≠ [] := by
  unfold removePane
  by_cases h1 : m.panes.length = 1
  · rw [if_pos h1]
    exact hm
  · rw [if_neg h1]
    by_cases h2 : 0 ≤ idx ∧ idx < (m.panes.length : Int)
    · rw [if_pos h2]
      have hpos : 0 < m.panes.length := List.length_pos.mpr hm
      exact eraseIdx_ne_nil_of_one_lt m.panes idx.toNat (by omega)
    · rw [if_neg h2]
      exact hm

theorem cleanupIfPaneIsEmpty_keeps_nonempty (pid : Nat) (panes : List Pane)
    (hp : panes ≠ []) : cleanupIfPaneIsEmpty pid panes ≠ [] := by
  unfold cleanupIfPaneIsEmpty
  cases hfind : panes.find? (fun p => p.pid == pid) with
  | none => exact hp
  | some pane =>
    dsimp only
    by_cases hcond : pane.numSeries + pane.numOtherSources = 0 ∧ 1 < panes.length
    · rw [if_pos hcond]
      exact eraseIdx_ne_nil_of_one_lt panes (panes.findIdx (fun p => p.pid == pid)) hcond.2
    · rw [if_neg hcond]
      exact hp

theorem removeOneSeries_keeps_nonempty (pid : Nat) (m : ModelState) (hm : m.panes ≠ []) :
    (removeOneSeries pid m).panes ≠ [] := by
  unfold removeOneSeries
  apply cleanupIfPaneIsEmpty_keeps_nonempty
  simpa using hm

theorem removeOneSeries_iter_keeps_nonempty (pid : Nat) (n : Nat) (m : ModelState)
    (hm : m.panes ≠ []) : ((removeOneSeries pid)^[n] m).panes ≠ [] := by
  induction n generalizing m with
  | zero => simpa using hm
  | succ k ih =>
    rw [Function.iterate_succ_apply]
    exact ih _ (removeOneSeries_keeps_nonempty pid m hm)

theorem deletePaneById_keeps_nonempty (idx : Int) (m : ModelState) (hm : m.panes ≠ []) :
    (deletePaneById idx m).state.panes ≠ [] := by
  unfold deletePaneById
  by_cases h0 : idx = 0
  · rw [if_pos h0]
    exact hm
  · rw [if_neg h0]
    by_cases hrange : (m.panes.length : Int) ≤ idx ∨ idx < 0
    · rw [if_pos hrange]
      exact hm
    · rw [if_neg hrange]
      cases hget : m.panes[idx.toNat]? with
      | none => exact hm
      | some pane =>
        exact removePane_keeps_nonempty idx _
          (removeOneSeries_iter_keeps_nonempty pane.pid pane.numSeries m hm)

end Panes

/-- C9 counterexample: deletePaneById consults no build mode; with two
panes and the out-of-range index 5 it warns and returns unchanged without
throwing (so it does not throw in development builds), while removePane
with the same out-of-range index throws its assert in every build
(so it does not silently no-op in production builds). -/
theorem pane_index_error_counterexample :
    (Panes.deletePaneById 5 Panes.twoPaneModel).thrown = none ∧
    (Panes.deletePaneById 5 Panes.twoPaneModel).state = Panes.twoPaneModel ∧
    (Panes.removePane 5 Panes.twoPaneModel).thrown = some "Invalid pane index" := by
  refine ⟨?_, ?_, ?_⟩ <;> rfl

/-- C9 amended: the dev-throw / prod-no-op policy holds only for
applyPriceScaleOptions; deletePaneById warns and no-ops on an index that
is 0 or out of range in every build, and removePane no-ops when a single
pane exists but otherwise throws its assert on an out-of-range index in
every build, leaving the model unchanged in each of these cases. -/
theorem pane_index_error_amended :
    (∀ (sid : String) (idx : Int) (m : Panes.ModelState),
      ¬(0 ≤ idx ∧ idx < (m.panes.length : Int)) →
        Panes.applyPriceScaleOptions Panes.BuildMode.development sid idx m =
          ⟨m, some "Trying to apply price scale options with incorrect pane index"⟩ ∧
        Panes.applyPriceScaleOptions Panes.BuildMode.production sid idx m = ⟨m, none⟩) ∧
    (∀ (idx : Int) (m : Panes.ModelState),
      idx = 0 ∨ (m.panes.length : Int) ≤ idx ∨ idx < 0 →
        Panes.deletePaneById idx m = ⟨m, none⟩) ∧
    (∀ (idx : Int) (m : Panes.ModelState), m.panes.length = 1 →
        Panes.removePane idx m = ⟨m, none⟩) ∧
    (∀ (idx : Int) (m : Panes.ModelState),
      m.panes.length ≠ 1 → ¬(0 ≤ idx ∧ idx < (m.panes.length : Int)) →
        Panes.removePane idx m = ⟨m, some "Invalid pane index"⟩) := by
  refine ⟨?_, ?_, ?_, ?_⟩
  · intro sid idx m h
    unfold Panes.applyPriceScaleOptions
    rw [if_neg h, if_neg h]
    exact ⟨by rw [if_pos rfl], by rw [if_neg (by simp)]⟩
  · intro idx m h
    unfold Panes.deletePaneById
    by_cases h0 : idx = 0
    · rw [if_pos h0]
    · rw [if_neg h0, if_pos (h.resolve_left h0)]
  · intro idx m h
    unfold Panes.removePane
    rw [if_pos h]
  · intro idx m h1 h2
    unfold Panes.removePane
    rw [if_neg h1, if_neg h2]

/-- C9 witness: the amended behaviors at concrete inputs — a one-pane
model with index 3 for applyPriceScaleOptions in both builds, index 0 and
a big index for deletePaneById and removePane, and index -1 on a two-pane
model for the removePane assert. -/
theorem pane_index_error_amended_witness :
    Panes.applyPriceScaleOptions Panes.BuildMode.development "right" 3 Panes.initialModel =
      ⟨Panes.initialModel, some "Trying to apply price scale options with incorrect pane index"⟩ ∧
    Panes.deletePaneById 0 Panes.initialModel = ⟨Panes.initialModel, none⟩ ∧
    Panes.removePane 7 Panes.initialModel = ⟨Panes.initialModel, none⟩ ∧
    Panes.removePane (-1) Panes.twoPaneModel = ⟨Panes.twoPaneModel, some "Invalid pane index"⟩ :=
  ⟨(pane_index_error_amended.1 "right" 3 Panes.initialModel (by decide)).1,
   pane_index_error_amended.2.1 0 Panes.initialModel (Or.inl rfl),
   pane_index_error_amended.2.2.1 7 Panes.initialModel (by decide),
   pane_index_error_amended.2.2.2 (-1) Panes.twoPaneModel (by decide) (by decide)⟩

/-- C10: the pane list is non-empty right after construction (the
constructor creates pane 0) and stays non-empty under removePane,
deletePaneById and the empty-pane cleanup run by series removal. -/
theorem panes_nonempty_invariant :
    Panes.initialModel.panes ≠ [] ∧
    (∀ (idx : Int) (m : Panes.ModelState), m.panes ≠ [] →
      (Panes.removePane idx m).state.panes ≠ []) ∧
    (∀ (idx : Int) (m : Panes.ModelState), m.panes ≠ [] →
      (Panes.deletePaneById idx m).state.panes ≠ []) ∧
    (∀ (pid : Nat) (m : Panes.ModelState), m.panes ≠ [] →
      (Panes.removeOneSeries pid m).panes ≠ []) :=
  ⟨by simp [Panes.initialModel],
   Panes.removePane_keeps_nonempty,
   Panes.deletePaneById_keeps_nonempty,
   Panes.removeOneSeries_keeps_nonempty⟩

/-- C10 witness: the invariant applied to the concrete two-pane model at
index 1 (a genuine removal) and to the cleanup of pane 1. -/
theorem panes_nonempty_invariant_witness :
    (Panes.removePane 1 Panes.twoPaneModel).state.panes ≠ [] ∧
    (Panes.deletePaneById 1 Panes.twoPaneModel).state.panes ≠ [] ∧
    (Panes.removeOneSeries 1 Panes.twoPaneModel).panes ≠ [] :=
  ⟨panes_nonempty_invariant.2.1 1 Panes.twoPaneModel (by decide),
   panes_nonempty_invariant.2.2.1 1 Panes.twoPaneModel (by decide),
   panes_nonempty_invariant.2.2.2 1 Panes.twoPaneModel (by decide)⟩
